import Mathlib

/-!
Verification of the medication-adherence tracking backend.

The development shallowly embeds the computational core of the
application: the adherence/expected-dose calculations of the
`Medication` entity, the external drug-information lookup contract,
the date-range filtering endpoint of `DoseLogViewSet`, the
update-rejection behaviour of `NoteViewSet`, the cascade delete of a
medication, and the `last_notes_for_med` utility.

Conventions of the embedding:
* calendar dates are integers (a day ordinal); a timestamp is a pair
  of a day ordinal and a time-of-day component, ordered
  lexicographically;
* Python `float` percentages are modelled as rationals, with
  `round(x, 2)` modelled by `round2`;
* fallible operations return `Except String`, the error string being
  the exception message;
* HTTP handlers are functions from the request parameters and the
  stored records to a response value; an unhandled Python exception is
  an `Except.error` carrying the exception type name.
-/

/-- A timestamp: the calendar day ordinal plus a time-of-day component. -/
structure Timestamp where
  day : ℤ
  tod : ℤ
deriving DecidableEq

/-- Chronological order on timestamps (lexicographic on day, then time). -/
def Timestamp.le (a b : Timestamp) : Prop :=
  a.day < b.day ∨ (a.day = b.day ∧ a.tod ≤ b.tod)

instance (a b : Timestamp) : Decidable (Timestamp.le a b) := by
  unfold Timestamp.le; exact inferInstance

/-- A dose log record: medication reference, timestamp, taken/missed flag. -/
structure DoseLog where
  id : ℤ
  medication : ℤ
  taken_at : Timestamp
  was_taken : Bool
deriving DecidableEq

/-- Comparison of dose logs by their `taken_at` timestamp
(the `order_by("taken_at")` ordering in `DoseLogViewSet.filter_by_date`). -/
def DoseLog.byTakenAt (a b : DoseLog) : Prop :=
  Timestamp.le a.taken_at b.taken_at

instance : DecidableRel DoseLog.byTakenAt := fun a b =>
  inferInstanceAs (Decidable (Timestamp.le a.taken_at b.taken_at))

instance : IsTotal DoseLog DoseLog.byTakenAt where
  total a b := by
    unfold DoseLog.byTakenAt Timestamp.le
    omega

instance : IsTrans DoseLog DoseLog.byTakenAt where
  trans a b c hab hbc := by
    unfold DoseLog.byTakenAt Timestamp.le at *
    omega

/-- A clinical note record: medication reference, text, creation time. -/
structure Note where
  id : ℤ
  medication : ℤ
  text : Option String
  created_at : ℤ
deriving DecidableEq

/-- Python `round(x, 2)`: rounding a rational to two decimal places. -/
def round2 (q : ℚ) : ℚ := (⌊100 * q + 1 / 2⌋ : ℚ) / 100

/-- Modelled from the spec: `Medication.adherence_rate` (the `models.py`
source is not part of the provided tree).  Empty log set gives `0.0`;
otherwise `round(100 * count(was_taken=true) / total_count, 2)`. -/
def adherence_rate (logs : List DoseLog) : ℚ :=
  if logs.length = 0 then 0
  else round2 (100 * (logs.countP (fun l => l.was_taken) : ℚ) / (logs.length : ℚ))

/-- Modelled from the spec: `Medication.expected_doses` (the `models.py`
source is not part of the provided tree).  Returns
`prescribed_per_day * days`; raises `ValueError` with message
"Days and schedule must be positive" when `days <= 0` or
`prescribed_per_day <= 0`. -/
def expected_doses (days prescribed_per_day : ℤ) : Except String ℤ :=
  if days ≤ 0 ∨ prescribed_per_day ≤ 0 then
    Except.error "Days and schedule must be positive"
  else
    Except.ok (prescribed_per_day * days)

/-- Modelled from the spec: `Medication.adherence_rate_over_period` (the
`models.py` source is not part of the provided tree).  Requires
`start_date <= end_date`; computes the expected dose count over the
inclusive window, guards `expected <= 0` to `0.0`, and otherwise
returns the rounded percentage of taken logs inside the window. -/
def adherence_rate_over_period (logs : List DoseLog)
    (start_date end_date prescribed_per_day : ℤ) : Except String ℚ :=
  if end_date < start_date then
    Except.error "start_date must be before or equal to end_date"
  else
    let window_days := end_date - start_date + 1
    let expected := prescribed_per_day * window_days
    if expected ≤ 0 then Except.ok 0
    else
      let taken := (logs.filter (fun l =>
        decide (start_date ≤ l.taken_at.day) && decide (l.taken_at.day ≤ end_date)
          && l.was_taken)).length
      Except.ok (round2 (100 * (taken : ℚ) / (expected : ℚ)))

/-- `round2` maps `[0, 100]` into `[0, 100]`. -/
theorem round2_mem_Icc {q : ℚ} (h0 : 0 ≤ q) (h1 : q ≤ 100) :
    0 ≤ round2 q ∧ round2 q ≤ 100 := by
  unfold round2
  constructor
  · have hf : (0 : ℤ) ≤ ⌊100 * q + 1 / 2⌋ := by
      rw [Int.le_floor]
      push_cast
      linarith
    have : (0 : ℚ) ≤ (⌊100 * q + 1 / 2⌋ : ℚ) := by exact_mod_cast hf
    linarith
  · have hf : ⌊100 * q + 1 / 2⌋ ≤ ⌊(10000 : ℚ) + 1 / 2⌋ :=
      Int.floor_le_floor (by linarith)
    have h2 : ⌊(10000 : ℚ) + 1 / 2⌋ = 10000 := by norm_num
    rw [h2] at hf
    have : (⌊100 * q + 1 / 2⌋ : ℚ) ≤ 10000 := by exact_mod_cast hf
    linarith

/-- C1: `adherence_rate` returns `0.0` on an empty log set, otherwise
`round(100 * count(was_taken=true) / total, 2)`, and the result always
lies in `[0, 100]`. -/
theorem adherence_rate_spec (logs : List DoseLog) :
    (logs = [] → adherence_rate logs = 0) ∧
    (logs ≠ [] → adherence_rate logs =
      round2 (100 * (logs.countP (fun l => l.was_taken) : ℚ) / (logs.length : ℚ))) ∧
    0 ≤ adherence_rate logs ∧ adherence_rate logs ≤ 100 := by
  refine ⟨?_, ?_, ?_⟩
  · intro h; simp [adherence_rate, h]
  · intro h
    have hlen : logs.length ≠ 0 := by simpa [List.length_eq_zero] using h
    simp [adherence_rate, hlen]
  · rcases eq_or_ne logs [] with h | h
    · simp [adherence_rate, h]
    · have hlen : logs.length ≠ 0 := by simpa [List.length_eq_zero] using h
      have hpos : 0 < (logs.length : ℚ) := by
        exact_mod_cast Nat.pos_of_ne_zero hlen
      have hcount : (logs.countP (fun l => l.was_taken) : ℚ) ≤ (logs.length : ℚ) := by
        exact_mod_cast logs.countP_le_length _
      have hcnonneg : (0 : ℚ) ≤ (logs.countP (fun l => l.was_taken) : ℚ) := by
        positivity
      have h0 : 0 ≤ 100 * (logs.countP (fun l => l.was_taken) : ℚ) / (logs.length : ℚ) := by
        positivity
      have h1 : 100 * (logs.countP (fun l => l.was_taken) : ℚ) / (logs.length : ℚ) ≤ 100 := by
        rw [div_le_iff₀ hpos]
        nlinarith
      have := round2_mem_Icc h0 h1
      simpa [adherence_rate, hlen] using this

/-- Concrete dose logs: taken, missed, taken (the mixed-logs test data). -/
def mixedLogs : List DoseLog :=
  [⟨1, 1, ⟨0, 0⟩, true⟩, ⟨2, 1, ⟨-1, 0⟩, false⟩, ⟨3, 1, ⟨-2, 0⟩, true⟩]

/-- C1 witness: on three logs (taken, missed, taken) the adherence rate is
`66.67`, inside `[0, 100]`. -/
theorem adherence_rate_spec_witness :
    adherence_rate mixedLogs = 66.67 ∧
    0 ≤ adherence_rate mixedLogs ∧ adherence_rate mixedLogs ≤ 100 := by
  refine ⟨?_, (adherence_rate_spec mixedLogs).2.2⟩
  have h := (adherence_rate_spec mixedLogs).2.1 (by decide)
  rw [h]
  norm_num [mixedLogs, round2]

/-- C3: `expected_doses` fails with "Days and schedule must be positive"
exactly when `days <= 0` or `prescribed_per_day <= 0`, and otherwise
returns `prescribed_per_day * days`. -/
theorem expected_doses_spec (days prescribed_per_day : ℤ) :
    (expected_doses days prescribed_per_day =
        Except.error "Days and schedule must be positive" ↔
      days ≤ 0 ∨ prescribed_per_day ≤ 0) ∧
    (0 < days → 0 < prescribed_per_day →
      expected_doses days prescribed_per_day =
        Except.ok (prescribed_per_day * days)) := by
  constructor
  · constructor
    · intro h
      by_contra hc
      push_neg at hc
      simp [expected_doses, hc.1.not_lt, hc.2.not_lt] at h
      omega
    · intro h
      simp [expected_doses, h]
  · intro h1 h2
    have : ¬(days ≤ 0 ∨ prescribed_per_day ≤ 0) := by omega
    simp [expected_doses, this]

/-- C3 witness: `expected_doses(days=10)` with `prescribed_per_day=2` is
`20`, and `expected_doses(days=-5)` fails with the tested message. -/
theorem expected_doses_spec_witness :
    expected_doses 10 2 = Except.ok 20 ∧
    expected_doses (-5) 2 = Except.error "Days and schedule must be positive" := by
  constructor
  · have h := (expected_doses_spec 10 2).2 (by decide) (by decide)
    rw [h]; norm_num
  · exact (expected_doses_spec (-5) 2).1.mpr (by decide)

/-- C2: with `start_date <= end_date`, `adherence_rate_over_period`
computes `expected = prescribed_per_day * ((end - start).days + 1)`,
returns `0.0` when `expected <= 0`, and otherwise
`round(100 * taken_in_window / expected, 2)` where `taken_in_window`
counts logs with `was_taken` whose date lies in the inclusive window. -/
theorem adherence_rate_over_period_spec (logs : List DoseLog)
    (start_date end_date prescribed_per_day : ℤ)
    (h : start_date ≤ end_date) :
    (prescribed_per_day * (end_date - start_date + 1) ≤ 0 →
      adherence_rate_over_period logs start_date end_date prescribed_per_day =
        Except.ok 0) ∧
    (0 < prescribed_per_day * (end_date - start_date + 1) →
      adherence_rate_over_period logs start_date end_date prescribed_per_day =
        Except.ok (round2 (100 *
          ((logs.filter (fun l =>
            decide (start_date ≤ l.taken_at.day) && decide (l.taken_at.day ≤ end_date)
              && l.was_taken)).length : ℚ) /
          ((prescribed_per_day * (end_date - start_date + 1) : ℤ) : ℚ)))) := by
  have hns : ¬ end_date < start_date := by omega
  constructor
  · intro hex
    simp [adherence_rate_over_period, hns, hex]
  · intro hex
    have : ¬ prescribed_per_day * (end_date - start_date + 1) ≤ 0 := by omega
    simp [adherence_rate_over_period, hns, this]

/-- Concrete dose logs for the window example: one taken log inside the
window (day 1), one taken log outside it (day -1). -/
def windowLogs : List DoseLog :=
  [⟨1, 1, ⟨1, 0⟩, true⟩, ⟨2, 1, ⟨-1, 0⟩, true⟩]

/-- C2 witness: `prescribed_per_day = 2` over the two-day window `[0, 1]`
with one taken log inside and one outside gives `25.0`. -/
theorem adherence_rate_over_period_spec_witness :
    adherence_rate_over_period windowLogs 0 1 2 = Except.ok 25 := by
  have h := (adherence_rate_over_period_spec windowLogs 0 1 2 (by decide)).2 (by decide)
  rw [h]
  norm_num [windowLogs, round2]

/-- C4: when `start_date > end_date`, `adherence_rate_over_period` fails
with "start_date must be before or equal to end_date", for every log
set and schedule. -/
theorem adherence_rate_over_period_invalid_date (logs : List DoseLog)
    (start_date end_date prescribed_per_day : ℤ)
    (h : end_date < start_date) :
    adherence_rate_over_period logs start_date end_date prescribed_per_day =
      Except.error "start_date must be before or equal to end_date" := by
  simp [adherence_rate_over_period, h]

/-- C4 witness: the window from day 1 back to day 0 is rejected. -/
theorem adherence_rate_over_period_invalid_date_witness :
    adherence_rate_over_period windowLogs 1 0 2 =
      Except.error "start_date must be before or equal to end_date" :=
  adherence_rate_over_period_invalid_date windowLogs 1 0 2 (by decide)

/-- The payload returned by the external drug-information gateway. -/
structure DrugInfo where
  name : String
  manufacturer : String
  warnings : List String
  purpose : List String
deriving DecidableEq

/-- Modelled from the spec: `DrugInfoService.get_drug_info` (the
`services.py` source is not part of the provided tree).  Rejects an
empty drug name with "drug_name is required"; the remote lookup is
abstracted as the `upstream` outcome. -/
def get_drug_info (drug_name : String) (upstream : Except String DrugInfo) :
    Except String DrugInfo :=
  if drug_name = "" then Except.error "drug_name is required" else upstream

/-- The result object of `fetch_external_info`: either a payload, or an
`error` field holding the caught exception's message. -/
structure ExternalInfoResult where
  payload : Option DrugInfo
  error : Option String
deriving DecidableEq

/-- Modelled from the spec: `Medication.fetch_external_info` (the
`models.py` source is not part of the provided tree).  Delegates to
the gateway and converts any raised exception into a result object
with an `error` field; it is a total function, so it never raises to
its caller. -/
def fetch_external_info (name : String) (upstream : Except String DrugInfo) :
    ExternalInfoResult :=
  match get_drug_info name upstream with
  | Except.ok info => ⟨some info, none⟩
  | Except.error m => ⟨none, some m⟩

/-- C5: `fetch_external_info` never raises: every gateway exception is
converted into a result whose `error` field holds the exception's
message, a gateway success is returned without an `error` field, and
an empty medication name yields `error = "drug_name is required"`. -/
theorem fetch_external_info_spec (name : String)
    (upstream : Except String DrugInfo) :
    (∀ m, get_drug_info name upstream = Except.error m →
      fetch_external_info name upstream = ⟨none, some m⟩) ∧
    (∀ info, get_drug_info name upstream = Except.ok info →
      fetch_external_info name upstream = ⟨some info, none⟩) ∧
    (name = "" →
      (fetch_external_info name upstream).error = some "drug_name is required") := by
  refine ⟨?_, ?_, ?_⟩
  · intro m hm; simp [fetch_external_info, hm]
  · intro info hi; simp [fetch_external_info, hi]
  · intro hn
    have hg : get_drug_info name upstream = Except.error "drug_name is required" := by
      simp [get_drug_info, hn]
    simp [fetch_external_info, hg]

/-- C5 witness: a medication with an empty name gets the result object
with `error = "drug_name is required"`, whatever the upstream holds. -/
theorem fetch_external_info_spec_witness :
    (fetch_external_info "" (Except.ok ⟨"Aspirin", "Bayer", [], []⟩)).error =
      some "drug_name is required" :=
  (fetch_external_info_spec "" (Except.ok ⟨"Aspirin", "Bayer", [], []⟩)).2.2 rfl

/-- The body of a response of `DoseLogViewSet.filter_by_date`: an HTTP
status code and the serialized list of dose logs. -/
structure FilterResponse where
  status : ℕ
  logs : List DoseLog
deriving DecidableEq

/-- `DoseLogViewSet.filter_by_date` (src/medtrackerapp/views.py).  The
Django date parser is passed in as `parseStr`; a missing query
parameter reaches `parse_date(None)`, which raises `TypeError`
(modelled as `Except.error "TypeError"`); if either bound parses to
`None` the handler returns 400; otherwise it returns 200 with the logs
whose `taken_at` date lies in the inclusive range, ordered by
`taken_at`. -/
def filter_by_date (parseStr : String → Option ℤ)
    (startParam endParam : Option String) (store : List DoseLog) :
    Except String FilterResponse :=
  match startParam, endParam with
  | none, _ => Except.error "TypeError"
  | some _, none => Except.error "TypeError"
  | some s, some e =>
    match parseStr s, parseStr e with
    | some sd, some ed =>
      Except.ok ⟨200, List.insertionSort DoseLog.byTakenAt
        (store.filter (fun l =>
          decide (sd ≤ l.taken_at.day) && decide (l.taken_at.day ≤ ed)))⟩
    | _, _ => Except.ok ⟨400,
        []⟩

/-- C6: with the `start` query parameter absent, `filter_by_date` hands
`None` to `parse_date`, which raises `TypeError` instead of producing
the documented 400 response; the same happens for an absent `end`. -/
theorem filter_by_date_missing_param (parseStr : String → Option ℤ)
    (store : List DoseLog) :
    filter_by_date parseStr none (some "2025-11-07") store =
      Except.error "TypeError" ∧
    filter_by_date parseStr (some "2025-11-01") none store =
      Except.error "TypeError" :=
  ⟨rfl, rfl⟩

/-- C9: for parsable `start` and `end` bounds, `filter_by_date` returns a
200 response whose log list is sorted in ascending `taken_at` order and
is a permutation of the in-range logs of the store. -/
theorem filter_by_date_sorted (parseStr : String → Option ℤ)
    (sParam eParam : String) (sd ed : ℤ) (store : List DoseLog)
    (hs : parseStr sParam = some sd) (he : parseStr eParam = some ed) :
    ∃ resp, filter_by_date parseStr (some sParam) (some eParam) store =
        Except.ok resp ∧
      resp.status = 200 ∧
      List.Pairwise DoseLog.byTakenAt resp.logs ∧
      resp.logs.Perm (store.filter (fun l =>
        decide (sd ≤ l.taken_at.day) && decide (l.taken_at.day ≤ ed))) := by
  have hmain : filter_by_date parseStr (some sParam) (some eParam) store =
      Except.ok ⟨200, List.insertionSort DoseLog.byTakenAt
        (store.filter (fun l =>
          decide (sd ≤ l.taken_at.day) && decide (l.taken_at.day ≤ ed)))⟩ := by
    simp [filter_by_date, hs, he]
  exact ⟨_, hmain, rfl, List.sorted_insertionSort DoseLog.byTakenAt _,
    List.perm_insertionSort DoseLog.byTakenAt _⟩

/-- A concrete stand-in for the Django date parser, mapping two fixed
date strings to day ordinals. -/
def demoParse (s : String) : Option ℤ :=
  if s = "2025-11-01" then some 0 else if s = "2025-11-07" then some 6 else none

/-- C9 witness: filtering the mixed demo store between the two demo dates
yields a 200 response, sorted by `taken_at`, permuting the in-range logs. -/
theorem filter_by_date_sorted_witness :
    ∃ resp, filter_by_date demoParse (some "2025-11-01") (some "2025-11-07")
        mixedLogs = Except.ok resp ∧
      resp.status = 200 ∧
      List.Pairwise DoseLog.byTakenAt resp.logs ∧
      resp.logs.Perm (mixedLogs.filter (fun l =>
        decide ((0 : ℤ) ≤ l.taken_at.day) && decide (l.taken_at.day ≤ (6 : ℤ)))) :=
  filter_by_date_sorted demoParse "2025-11-01" "2025-11-07" 0 6 mixedLogs rfl rfl

/-- A generic API response: HTTP status plus optional error message. -/
structure ApiResponse where
  status : ℕ
  error : Option String
deriving DecidableEq

/-- `NoteViewSet._handle_update_attempt` (src/medtrackerapp/views.py):
returns a 405 response and touches nothing. -/
def handle_update_attempt (store : List Note) : ApiResponse × List Note :=
  (⟨405, some "Updates to doctor\x27s notes are not supported."⟩, store)

/-- `NoteViewSet.update` (src/medtrackerapp/views.py): full update (PUT)
on a note is redirected to the 405 handler. -/
def note_update (store : List Note) (_pk : ℤ) (_newText : String) :
    ApiResponse × List Note :=
  handle_update_attempt store

/-- `NoteViewSet.partial_update` (src/medtrackerapp/views.py): partial
update (PATCH) on a note is redirected to the 405 handler. -/
def note_partial_update (store : List Note) (_pk : ℤ) (_newText : String) :
    ApiResponse × List Note :=
  handle_update_attempt store

/-- Modelled from the spec: deletion of a note (the framework-provided
destroy handler is not part of the provided tree).  Deleting an
existing note removes it and answers 204. -/
def note_destroy (store : List Note) (pk : ℤ) : ApiResponse × List Note :=
  if store.any (fun n => decide (n.id = pk)) then
    (⟨204, none⟩, store.filter (fun n => decide (n.id ≠ pk)))
  else
    (⟨404, none⟩, store)

/-- C7: a note is immutable once created: PUT and PATCH are both answered
with status 405 and leave the note store unchanged, while deleting an
existing note still succeeds with 204 and removes it. -/
theorem note_immutable (store : List Note) (pk : ℤ) (newText : String) :
    (note_update store pk newText).1.status = 405 ∧
    (note_update store pk newText).2 = store ∧
    (note_partial_update store pk newText).1.status = 405 ∧
    (note_partial_update store pk newText).2 = store ∧
    ((∃ n ∈ store, n.id = pk) →
      (note_destroy store pk).1.status = 204 ∧
      ∀ m ∈ (note_destroy store pk).2, m.id ≠ pk) := by
  refine ⟨rfl, rfl, rfl, rfl, ?_⟩
  rintro ⟨n, hn, hid⟩
  have hany : store.any (fun n => decide (n.id = pk)) = true := by
    rw [List.any_eq_true]
    exact ⟨n, hn, by simp [hid]⟩
  constructor
  · simp [note_destroy, hany]
  · intro m hm
    simp only [note_destroy, hany, if_true, List.mem_filter] at hm
    simpa using hm.2

/-- A concrete note store holding one note. -/
def demoNoteStore : List Note := [⟨1, 1, some "Original Text", 0⟩]

/-- C7 witness: on the one-note store, PUT and PATCH answer 405 without
touching the store, and deleting the note answers 204 and removes it. -/
theorem note_immutable_witness :
    (note_update demoNoteStore 1 "Updated Text").1.status = 405 ∧
    (note_update demoNoteStore 1 "Updated Text").2 = demoNoteStore ∧
    (note_partial_update demoNoteStore 1 "Updated Text").1.status = 405 ∧
    (note_partial_update demoNoteStore 1 "Updated Text").2 = demoNoteStore ∧
    ((note_destroy demoNoteStore 1).1.status = 204 ∧
      ∀ m ∈ (note_destroy demoNoteStore 1).2, m.id ≠ 1) := by
  have h := note_immutable demoNoteStore 1 "Updated Text"
  exact ⟨h.1, h.2.1, h.2.2.1, h.2.2.2.1,
    h.2.2.2.2 ⟨⟨1, 1, some "Original Text", 0⟩, by simp [demoNoteStore], rfl⟩⟩

/-- The stored records of the application: medications, dose logs, notes. -/
structure AppState where
  medications : List ℤ
  logs : List DoseLog
  notes : List Note
deriving DecidableEq

/-- Modelled from the spec: deleting a medication (the `models.py`
source defining the CASCADE relations is not part of the provided
tree).  The medication is removed and the delete cascades to every
dose log and note referencing it. -/
def delete_medication (st : AppState) (mid : ℤ) : AppState :=
  ⟨st.medications.filter (fun i => decide (i ≠ mid)),
   st.logs.filter (fun l => decide (l.medication ≠ mid)),
   st.notes.filter (fun n => decide (n.medication ≠ mid))⟩

/-- C8: after deleting a medication, a dose log or note is in the store
exactly when it was there before and does not reference the deleted
medication: the cascade removes all its children and only them. -/
theorem delete_medication_cascade (st : AppState) (mid : ℤ) :
    (∀ l : DoseLog, l ∈ (delete_medication st mid).logs ↔
      l ∈ st.logs ∧ l.medication ≠ mid) ∧
    (∀ n : Note, n ∈ (delete_medication st mid).notes ↔
      n ∈ st.notes ∧ n.medication ≠ mid) := by
  constructor
  · intro l
    simp [delete_medication, List.mem_filter]
  · intro n
    simp [delete_medication, List.mem_filter]

/-- A concrete application state with two medications and one child
record of each kind per medication. -/
def demoState : AppState :=
  ⟨[1, 2],
   [⟨1, 1, ⟨0, 0⟩, true⟩, ⟨2, 2, ⟨0, 0⟩, true⟩],
   [⟨1, 1, none, 0⟩, ⟨2, 2, none, 0⟩]⟩

/-- C8 witness: deleting medication 1 removes its dose log and note and
keeps the records of medication 2. -/
theorem delete_medication_cascade_witness :
    (⟨1, 1, ⟨0, 0⟩, true⟩ : DoseLog) ∉ (delete_medication demoState 1).logs ∧
    (⟨2, 2, ⟨0, 0⟩, true⟩ : DoseLog) ∈ (delete_medication demoState 1).logs ∧
    (⟨1, 1, none, 0⟩ : Note) ∉ (delete_medication demoState 1).notes ∧
    (⟨2, 2, none, 0⟩ : Note) ∈ (delete_medication demoState 1).notes := by
  have h := delete_medication_cascade demoState 1
  refine ⟨?_, ?_, ?_, ?_⟩
  · intro hmem
    have := (h.1 _).mp hmem
    simp at this
  · exact (h.1 _).mpr ⟨by simp [demoState], by simp⟩
  · intro hmem
    have := (h.2 _).mp hmem
    simp at this
  · exact (h.2 _).mpr ⟨by simp [demoState], by simp⟩

/-- Newest-first comparison of notes (the `order_by("-created_at")`
ordering in `last_notes_for_med`). -/
def created_at_desc (a b : Note) : Prop := b.created_at ≤ a.created_at

instance : DecidableRel created_at_desc := fun a b =>
  inferInstanceAs (Decidable (b.created_at ≤ a.created_at))

instance : IsTotal Note created_at_desc where
  total a b := (le_total b.created_at a.created_at : _ ∨ _)

instance : IsTrans Note created_at_desc where
  trans _ _ _ hab hbc := le_trans hbc hab

/-- `last_notes_for_med` (src/medtrackerapp/utils.py): the texts of the
medication's notes, newest first, truncated to `limit`, with `None`
texts dropped after the truncation. -/
def last_notes_for_med (store : List Note) (med_id : ℤ) (limit : ℕ) :
    List String :=
  (((List.insertionSort created_at_desc
      (store.filter (fun n => decide (n.medication = med_id)))).map
        (fun n => n.text)).take limit).filterMap (fun t => t)

/-- The medication's notes sorted newest first (the
`order_by("-created_at")` queryset in `last_notes_for_med`). -/
def sorted_notes_for_med (store : List Note) (med_id : ℤ) : List Note :=
  List.insertionSort created_at_desc
    (store.filter (fun n => decide (n.medication = med_id)))

/-- C10: `last_notes_for_med` returns at most `limit` texts, and is
exactly the `filterMap` of the texts of the first `limit` notes of the
newest-first ordering of the medication's notes: the sorted list is a
permutation of the medication's notes, is descending in `created_at`,
and the result keeps precisely the non-`None` texts of its
length-`limit` prefix. -/
theorem last_notes_for_med_spec (store : List Note) (med_id : ℤ) (limit : ℕ) :
    (last_notes_for_med store med_id limit).length ≤ limit ∧
    (sorted_notes_for_med store med_id).Perm
      (store.filter (fun n => decide (n.medication = med_id))) ∧
    List.Pairwise created_at_desc (sorted_notes_for_med store med_id) ∧
    (∀ n ∈ (sorted_notes_for_med store med_id).take limit,
      n.medication = med_id) ∧
    last_notes_for_med store med_id limit =
      ((sorted_notes_for_med store med_id).take limit).filterMap
        (fun n => n.text) := by
  have hmap : ((sorted_notes_for_med store med_id).map
        (fun n => n.text)).take limit =
      ((sorted_notes_for_med store med_id).take limit).map (fun n => n.text) :=
    (List.map_take _ _ _).symm
  have hperm : (sorted_notes_for_med store med_id).Perm
      (store.filter (fun n => decide (n.medication = med_id))) := by
    simp only [sorted_notes_for_med]
    exact List.perm_insertionSort created_at_desc _
  have hres : last_notes_for_med store med_id limit =
      ((sorted_notes_for_med store med_id).take limit).filterMap
        (fun n => n.text) := by
    simp only [sorted_notes_for_med] at hmap ⊢
    rw [last_notes_for_med, hmap, List.filterMap_map]
    rfl
  refine ⟨?_, hperm, ?_, ?_, hres⟩
  · rw [hres]
    have h1 := List.length_filterMap_le (fun n : Note => n.text)
      ((sorted_notes_for_med store med_id).take limit)
    have h2 : ((sorted_notes_for_med store med_id).take limit).length ≤ limit := by
      rw [List.length_take]
      exact min_le_left _ _
    exact le_trans h1 h2
  · simp only [sorted_notes_for_med]
    exact List.sorted_insertionSort created_at_desc _
  · intro n hn
    have hsorted : n ∈ sorted_notes_for_med store med_id :=
      (List.take_sublist _ _).mem hn
    have hfilter : n ∈ store.filter (fun n => decide (n.medication = med_id)) :=
      hperm.mem_iff.mp hsorted
    have := List.mem_filter.mp hfilter
    simpa using this.2

/-- A concrete note store: three notes of medication 5 (one with a `None`
text) and one note of medication 6. -/
def demoNotes : List Note :=
  [⟨1, 5, some "b", 1⟩, ⟨2, 5, none, 2⟩, ⟨3, 5, some "a", 3⟩, ⟨4, 6, some "x", 0⟩]

/-- C10 witness: with `limit = 2`, medication 5 yields at most two texts;
the two newest notes have texts `"a"` and `None`, so the result is
`["a"]`. -/
theorem last_notes_for_med_spec_witness :
    (last_notes_for_med demoNotes 5 2).length ≤ 2 ∧
    last_notes_for_med demoNotes 5 2 = ["a"] :=
  ⟨(last_notes_for_med_spec demoNotes 5 2).1, by decide⟩
